import Mathlib

/-!
# Verification of the cush shell's job-control core (src/custom-shell.c)

This file gives a shallow embedding of the job registry, status reconciler,
foreground waiter, builtin dispatcher and pipeline executor of
`src/custom-shell.c`, and settles the frozen claims C1..C10 about them.

Modelling conventions:
* Machine integers (`int`, `pid_t`) are `Int` or `Nat`; no overflow is
  relevant at the values the program handles.
* Side effects (printing, signals, terminal handoff, process spawning) are
  recorded as an explicit trace of `Event`s, in the order the C code would
  perform them.
* The `jid2job` array is a function `Int → Option Job`; the intrusive
  `job_list` is the list of linked job ids, in linked-list order.
* External outcomes the shell merely observes are oracles: `posix_spawnp`
  results come from a `List (Option Nat)` (`none` = failure) and `waitpid`
  results from a `List (Nat × WaitStatus)`.
* Memory left indeterminate by `malloc` (the fields `add_job` does not set,
  the unwritten tail of a `pids` array) is given fixed junk values, noted at
  each use; no theorem depends on those values.
-/

/-- Signal numbers on the target platform (x86-64 Linux). -/
def SIGFPE : Nat := 8
def SIGSEGV : Nat := 11
def SIGABRT : Nat := 6
def SIGKILL : Nat := 9
def SIGTERM : Nat := 15
def SIGSTOP : Nat := 19
def SIGTSTP : Nat := 20
def SIGCONT : Nat := 18

/-- `#define MAXJOBS (1<<16)` -/
def MAXJOBS : Nat := 2 ^ 16

/-- `enum job_status` -/
inductive JobStatus where
  | FOREGROUND
  | BACKGROUND
  | STOPPED
  | NEEDSTERMINAL
deriving Repr, DecidableEq, BEq

/-- `struct ast_command`: one pipeline stage (argument vector plus the
per-stage stderr-to-stdout merge flag). -/
structure AstCommand where
  argv : List String
  dup_stderr_to_stdout : Bool
deriving Repr, DecidableEq

/-- `struct ast_pipeline`: its stages plus the pipeline-level redirection
and background flags. -/
structure AstPipeline where
  commands : List AstCommand
  iored_input : Option String
  iored_output : Option String
  append_to_output : Bool
  bg_job : Bool
deriving Repr, DecidableEq

/-- `struct job`.  `saved_tty_state` is a `struct termios` in C; terminal-mode
snapshots are abstracted to `Nat` tokens.  Fields `malloc` leaves
indeterminate until later assignments are modelled with junk defaults at the
places they arise. -/
structure Job where
  jid : Int
  status : JobStatus
  num_processes_alive : Int
  termStateIsSaved : Bool
  saved_tty_state : Nat
  pgid : Nat
  pids : List Nat
  pipe : AstPipeline
deriving Repr, DecidableEq

/-- Observable actions of the shell process, in program order. -/
inductive Event where
  | err (msg : String)                                     -- fprintf(stderr, ...) / perror
  | out (msg : String)                                     -- printf
  | jobLine (jid : Int) (label : String) (cmds : List (List String)) -- print_job
  | bgAnnounce (jid : Int) (pgid : Nat)                    -- print_bg: "[jid] pgid"
  | termSample                                             -- termstate_sample()
  | termGiveBack                                           -- termstate_give_terminal_back_to_shell()
  | termSaveGlobal                                         -- termstate_save(&saved_term)
  | termGiveTo (snap : Option Nat) (pgid : Nat)            -- termstate_give_terminal_to(...)
  | signalPg (pgid : Nat) (sig : Nat)                      -- killpg(pgid, sig)
  | spawn (argv : List String) (pgroup : Nat) (setsTty : Bool) -- posix_spawnp success
  | sigBlock                                               -- signal_block(SIGCHLD)
  | sigUnblock                                             -- signal_unblock(SIGCHLD)
  | fatal (msg : String)                                   -- utils_fatal_error
  | exitProcess                                            -- exit(0)
  | abortProcess                                           -- abort()
  | chdir (path : Option String)                           -- chdir(path) / chdir(getenv("HOME"))
  | undefined (idx : Int)                                  -- an out-of-bounds access: C behavior undefined
deriving Repr, DecidableEq

/-- A `(pid, wait status)` observation, as decoded by the `WIF*` macros. -/
inductive WaitStatus where
  | exited (code : Nat)
  | signaled (sig : Nat)
  | stopped (sig : Nat)
  | continued
deriving Repr, DecidableEq

/-- Shell-side state: the two registry structures plus the current terminal
modes (what `tcgetattr(0, ...)` would read; the arbiter itself is external). -/
structure ShellState where
  job_list : List Int
  jid2job : Int → Option Job
  ttyModes : Nat

/-- Write one slot of the `jid2job` array (a mutation of `struct job`
through its registry pointer). -/
def setJob (st : ShellState) (jid : Int) (job : Job) : ShellState :=
  { st with jid2job := fun i => if i = jid then some job else st.jid2job i }

/-- `get_job_from_jid` -/
def get_job_from_jid (st : ShellState) (jid : Int) : Option Job :=
  if jid > 0 ∧ jid < (MAXJOBS : Int) then st.jid2job jid else none

/-- `get_status` -/
def get_status (status : JobStatus) : String :=
  match status with
  | .FOREGROUND => "Foreground"
  | .BACKGROUND => "Running"
  | .STOPPED => "Stopped"
  | .NEEDSTERMINAL => "Stopped (tty)"

/-- `print_cmdline`'s reconstruction of a pipeline, kept as structured data. -/
def cmdlineOf (p : AstPipeline) : List (List String) :=
  p.commands.map (fun c => c.argv)

/-- `print_job` -/
def print_job (job : Job) : Event :=
  Event.jobLine job.jid (get_status job.status) (cmdlineOf job.pipe)

/-- `print_bg` -/
def print_bg (job : Job) : Event :=
  Event.bgAnnounce job.jid job.pgid

/-- Junk value standing for memory `malloc` left indeterminate. -/
def junkPid : Nat := 0

/-- Junk value standing for the indeterminate `status` field of a freshly
malloc'd `struct job` (`add_job` does not initialize it). -/
def junkStatus : JobStatus := JobStatus.BACKGROUND

/-- The first free slot of `jid2job`, scanning `i = 1 .. MAXJOBS-1` in order
(the loop body of `add_job`). -/
def smallestFreeJid (st : ShellState) : Option Nat :=
  (List.range' 1 (MAXJOBS - 1)).find? (fun i => (st.jid2job (i : Int)).isNone)

/-- Result of `add_job`: either the updated registry and the assigned job id,
or the `abort()` path (job id space exhausted). -/
inductive AddJobResult where
  | ok (st : ShellState) (jid : Nat)
  | aborted

/-- `add_job`.  The C code sets `pipe`, `num_processes_alive` and
`termStateIsSaved`, pushes the element onto `job_list`, then scans for the
smallest free id; on exhaustion it prints and `abort()`s.  `status`,
`saved_tty_state`, `pgid` and `pids` stay indeterminate (junk here); `pids`
is only allocated later by `run_command`. -/
def add_job (st : ShellState) (pipe : AstPipeline) : AddJobResult :=
  match smallestFreeJid st with
  | some i =>
      let job : Job :=
        { jid := (i : Int), status := junkStatus, num_processes_alive := 0,
          termStateIsSaved := false, saved_tty_state := junkPid,
          pgid := junkPid, pids := [], pipe := pipe }
      .ok { st with
              job_list := st.job_list ++ [(i : Int)],
              jid2job := fun k => if k = (i : Int) then some job else st.jid2job k } i
  | none => .aborted

/-- `delete_job`: clears the `jid2job` slot and frees the job.  It does NOT
unlink the element from `job_list` (the C caller in `main` performs
`list_remove` separately before calling it; the spawn-failure path in
`run_command` does not). -/
def delete_job (st : ShellState) (jid : Int) : ShellState :=
  { st with jid2job := fun i => if i = jid then none else st.jid2job i }

/-- `sizeof(job->pids)` as evaluated by the C compiler: the size of the
*pointer* `pid_t *pids` on the 64-bit target, i.e. 8 — not the length of the
allocated array. -/
def SIZEOF_PID_PTR : Nat := 8

/-- One application of the status-transition table of `handle_child_status`
to the job that owns the matched pid slot. -/
def applyTransition (ttyModes : Nat) (ws : WaitStatus) (job : Job) : Job × List Event :=
  match ws with
  | .exited _ =>
      if job.status = JobStatus.FOREGROUND then
        ({ job with num_processes_alive := job.num_processes_alive - 1 },
         [Event.termSample, Event.termGiveBack])
      else
        ({ job with num_processes_alive := job.num_processes_alive - 1 }, [])
  | .signaled sig =>
      ({ job with num_processes_alive := job.num_processes_alive - 1 },
       if sig = SIGFPE then [Event.err "Floating point exception"]
       else if sig = SIGSEGV then [Event.err "Segmentation fault"]
       else if sig = SIGABRT then [Event.err "Aborted"]
       else if sig = SIGKILL then [Event.err "Killed"]
       else if sig = SIGTERM then [Event.err "Terminated"]
       else [])
  | .stopped sig =>
      let job1 :=
        if job.status = JobStatus.FOREGROUND then
          { job with saved_tty_state := ttyModes, termStateIsSaved := true }
        else job
      let job2 := { job1 with status := JobStatus.STOPPED }
      (job2,
       (if sig = SIGTSTP then [print_job job2] else []) ++
       [Event.termSaveGlobal, Event.termGiveBack])
  | .continued =>
      if job.status = JobStatus.STOPPED ∨ job.status = JobStatus.NEEDSTERMINAL then
        ({ job with status := JobStatus.BACKGROUND }, [])
      else (job, [])

/-- The inner loop of `handle_child_status`:
`for (int i = 0; i < sizeof(job->pids); i++) if (job->pids[i] == pid) ...`.
The bound is `sizeof` of the pointer (8), not the stage count.  For a job
with fewer than 8 stages the C loop reads past the allocated array
(indeterminate heap bytes); those reads are modelled as never matching a
real pid.  There is no `break`: every matching scanned slot applies the
transition again. -/
def scanPids (ttyModes : Nat) (pid : Nat) (ws : WaitStatus) (job : Job) : Job × List Event :=
  (List.range SIZEOF_PID_PTR).foldl
    (fun acc i =>
      match acc.1.pids.get? i with
      | some p =>
          if p = pid then
            let r := applyTransition ttyModes ws acc.1
            (r.1, acc.2 ++ r.2)
          else acc
      | none => acc)
    (job, [])

/-- `handle_child_status`.  Scans every linked job (no early exit), and each
job's pid slots via `scanPids`.  A `job_list` entry whose `jid2job` slot is
already cleared corresponds to C reading a freed `struct job` (only possible
in the dangling-element state left by the spawn-failure path); it is skipped
here.  The C source's `if (!job) { report }` branch is unreachable because
`list_entry` never yields a null pointer, so an unmatched pid produces no
output at all. -/
def handle_child_status (pid : Nat) (ws : WaitStatus) (st : ShellState) :
    ShellState × List Event :=
  if st.job_list.isEmpty then
    (st, [Event.err "job list is empty"])
  else
    st.job_list.foldl
      (fun acc jid =>
        match acc.1.jid2job jid with
        | some job =>
            let r := scanPids acc.1.ttyModes pid ws job
            (setJob acc.1 jid r.1, acc.2 ++ r.2)
        | none => acc)
      (st, [])

/-- The body of `sigchld_handler`: drain a batch of non-blocking `waitpid`
results through the reconciler. -/
def sigchld_handler (obs : List (Nat × WaitStatus)) (st : ShellState) :
    ShellState × List Event :=
  obs.foldl
    (fun acc o =>
      let r := handle_child_status o.1 o.2 acc.1
      (r.1, acc.2 ++ r.2))
    (st, [])

/-- The `while` condition of `wait_for_job`:
`job->status == FOREGROUND && job->num_processes_alive > 0`. -/
def waitCont (st : ShellState) (jid : Int) : Bool :=
  match st.jid2job jid with
  | some job =>
      decide (job.status = JobStatus.FOREGROUND) && decide ((0 : Int) < job.num_processes_alive)
  | none => false

/-- `wait_for_job`, driven by the `waitpid` oracle.  Returns the final state,
the emitted events, and the unconsumed oracle suffix (so "performed no
blocking wait" is expressible).  An exhausted oracle while the loop condition
still holds models `waitpid` failing, which the C code makes fatal. -/
def wait_for_job (jid : Int) :
    List (Nat × WaitStatus) → ShellState →
    ShellState × List Event × List (Nat × WaitStatus)
  | [], st =>
      if waitCont st jid then
        (st, [Event.fatal "waitpid failed, see code for explanation"], [])
      else
        (st, [Event.termGiveBack, Event.sigUnblock], [])
  | (pid, ws) :: rest, st =>
      if waitCont st jid then
        let r := handle_child_status pid ws st
        let w := wait_for_job jid rest r.1
        (w.1, r.2 ++ w.2.1, w.2.2)
      else
        (st, [Event.termGiveBack, Event.sigUnblock], (pid, ws) :: rest)

/-- A fully initialized shell (after `list_init` / `termstate_init`). -/
def emptyState : ShellState :=
  { job_list := [], jid2job := fun _ => none, ttyModes := 0 }

/-- Digit-consuming tail of `atoi`: accumulate decimal digits, stop at the
first non-digit. -/
def atoiDigits : List Char → Nat → Nat
  | [], acc => acc
  | c :: cs, acc =>
      if c.isDigit then atoiDigits cs (acc * 10 + (c.toNat - 48)) else acc

/-- C `atoi`: skip leading whitespace, optional sign, then decimal digits. -/
def atoi (s : String) : Int :=
  let cs := s.data.dropWhile (fun c => c = ' ' || c = '\t' || c = '\n')
  match cs with
  | '-' :: rest => -(atoiDigits rest 0 : Int)
  | '+' :: rest => (atoiDigits rest 0 : Int)
  | _ => (atoiDigits cs 0 : Int)

/-- `fg_builtin`.  Takes the `waitpid` oracle because it ends by calling
`wait_for_job`, and `kres`, the OS outcome of its one `killpg` call (`false`
when the group no longer exists, e.g. after every process of the job was
already reaped while the registry entry still lingers): on
`killpg(...) != 0` the C code dies via `utils_fatal_error` and never reaches
`wait_for_job`. -/
def fg_builtin (cmd : AstCommand) (kres : Bool) (obs : List (Nat × WaitStatus))
    (st : ShellState) : ShellState × List Event × List (Nat × WaitStatus) :=
  match cmd.argv with
  | _ :: a1 :: _ =>
      let jobID := atoi a1
      match get_job_from_jid st jobID with
      | none => (st, [Event.err s!"fg {jobID} failed, no such job"], obs)
      | some job =>
          let job1 := { job with status := JobStatus.FOREGROUND }
          let st1 :=
            if job1.termStateIsSaved then
              setJob st jobID { job1 with termStateIsSaved := false }
            else
              setJob st jobID job1
          let ev1 : Event :=
            if job1.termStateIsSaved then
              Event.termGiveTo (some job1.saved_tty_state) job1.pgid
            else
              Event.termGiveTo none job1.pgid
          if kres then
            let w := wait_for_job jobID obs st1
            (w.1,
             ev1 :: print_job job1 :: Event.signalPg job1.pgid SIGCONT :: w.2.1,
             w.2.2)
          else
            (st1,
             ev1 :: print_job job1 :: Event.signalPg job1.pgid SIGCONT ::
               [Event.fatal s!"kill pgid failed {job1.pgid}"],
             obs)
  | _ => (st, [Event.err "No argument given with fg"], obs)

/-- `bg_builtin`.  Note that the C code prints via `print_job` (the job line),
not `print_bg`.  `kres` is the OS outcome of its `killpg` call: on failure
(`killpg(...) != 0`, e.g. the group already fully reaped) the C code dies via
`utils_fatal_error`; on success it calls `wait_for_job` — whose loop body can
never run because the status was just set to `BACKGROUND`. -/
def bg_builtin (cmd : AstCommand) (kres : Bool) (obs : List (Nat × WaitStatus))
    (st : ShellState) : ShellState × List Event × List (Nat × WaitStatus) :=
  match cmd.argv with
  | _ :: a1 :: _ =>
      let jobID := atoi a1
      match get_job_from_jid st jobID with
      | none => (st, [Event.err s!"bg {jobID} failed, no such job"], obs)
      | some job =>
          if job.status = JobStatus.STOPPED then
            let job1 := { job with status := JobStatus.BACKGROUND }
            let st1 := setJob st jobID job1
            if kres then
              let w := wait_for_job jobID obs st1
              (w.1,
               print_job job1 :: Event.signalPg job1.pgid SIGCONT :: w.2.1,
               w.2.2)
            else
              (st1,
               print_job job1 :: Event.signalPg job1.pgid SIGCONT ::
                 [Event.fatal s!"kill pgid failed {job1.pgid}"],
               obs)
          else
            (st, [Event.err s!"this job: {jobID} is already running"], obs)
  | _ => (st, [Event.err "bg: not enough arguments"], obs)

/-- `jobs_builtin`: print every live job, id ascending. -/
def jobs_builtin (st : ShellState) : List Event :=
  (List.range' 1 (MAXJOBS - 1)).filterMap
    (fun (i : Nat) => (get_job_from_jid st (i : Int)).map print_job)

/-- `kill_builtin`: mark the job `STOPPED`, then `killpg(pgid, SIGKILL)` once
per process known alive. -/
def kill_builtin (cmd : AstCommand) (st : ShellState) : ShellState × List Event :=
  match cmd.argv with
  | _ :: a1 :: _ =>
      let jobID := atoi a1
      match get_job_from_jid st jobID with
      | none => (st, [Event.err s!"attempt to kill {jobID} failed, no such process"])
      | some job =>
          if job.jid = atoi a1 then
            (setJob st jobID { job with status := JobStatus.STOPPED },
             List.replicate job.num_processes_alive.toNat (Event.signalPg job.pgid SIGKILL))
          else (st, [])
  | _ => (st, [Event.err "kill: not enough arguments"])

/-- `stop_builtin`: identical shape to `kill_builtin`, with `SIGSTOP`. -/
def stop_builtin (cmd : AstCommand) (st : ShellState) : ShellState × List Event :=
  match cmd.argv with
  | _ :: a1 :: _ =>
      let jobID := atoi a1
      match get_job_from_jid st jobID with
      | none => (st, [Event.err s!"attempt to stop {jobID} failed, no such process"])
      | some job =>
          if job.jid = atoi a1 then
            (setJob st jobID { job with status := JobStatus.STOPPED },
             List.replicate job.num_processes_alive.toNat (Event.signalPg job.pgid SIGSTOP))
          else (st, [])
  | _ => (st, [Event.err "stop: not enough arguments"])

/-- `exit_builtin`: `delete_job` every live id (their `job_list` elements stay
linked, but the process exits immediately), then `exit(0)`. -/
def exit_builtin (st : ShellState) : ShellState × List Event :=
  ({ st with
      jid2job := fun k => if 0 < k ∧ k < (MAXJOBS : Int) then none else st.jid2job k },
   [Event.exitProcess])

/-- `cd_custom_builtin`.  `chdir` and its `errno`-based failure messages run
against the external filesystem; the model records only the attempt. -/
def cd_custom_builtin (cmd : AstCommand) : List Event :=
  match cmd.argv with
  | _ :: a1 :: _ => [Event.chdir (some a1)]
  | _ => [Event.chdir none]

/-- `history_custom_builtin`: print retained entries, 1-based, oldest first. -/
def history_custom_builtin (hist : List String) : List Event :=
  (hist.enum).map (fun p => Event.out s!"[{p.fst + 1}]: {p.snd}")

/-- Outcome of the `argv[0][0] == '!'` branch of `run_command`. -/
inductive RecallResult where
  | rewritten (argv : List String) (announced : String)
  | reported (msg : String)
  | oobRead (idx : Int)
deriving Repr, DecidableEq

/-- The at-most-two tokens `strtok(line, " ")` extracts for the rewritten
argument vector (`argv[0]`, optional `argv[1]`, then NULL). -/
def strtokFirst2 (line : String) : List String :=
  ((line.splitOn " ").filter (fun t => t ≠ "")).take 2

/-- The `size` both recall branches compute.  The counter starts at `-1`, so
its first probe `cmd_history[-1]` reads one element *before* the history
array (undefined behavior in C); on the target that word is non-null, so the
loop counts to the entry count and the final `size++` lands at count + 1.
The `size == -1` error branch is reachable only if that out-of-bounds word
happened to be null, and is modelled away accordingly. -/
def recallSize (hist : List String) : Nat :=
  hist.length + 1

/-- The `!-n` branch.  It selects `cmd_history[size - n - 2]` with NO range
check: when the resulting index is outside the retained history the C code
reads (and then `strtok`s and rewrites `argv` from) out-of-bounds memory.
That access is returned as `.oobRead`. -/
def recallNegDash (hist : List String) (n : Nat) : RecallResult :=
  let idx : Int := (recallSize hist : Int) - (n : Int) - 2
  if 0 ≤ idx ∧ idx < (hist.length : Int) then
    match hist.get? idx.toNat with
    | some line =>
        -- strtok writes a NUL after the first token, so the subsequent
        -- "Running command from history" printf shows only that token.
        .rewritten (strtokFirst2 line) ((strtokFirst2 line).headD "")
    | none => .oobRead idx
  else .oobRead idx

/-- The `!n` branch.  Here the code DOES range-check: `n >= size || n < 1`
is rejected; combined with the off-by-one `size` (count + 1) this accepts
exactly the valid indices `1 .. count`. -/
def recallBangN (hist : List String) (n : Nat) : RecallResult :=
  if n ≥ recallSize hist ∨ n < 1 then
    .reported "Improper n-value for !n cmd"
  else
    match hist.get? (n - 1) with
    | some line =>
        .rewritten (strtokFirst2 line) ((strtokFirst2 line).headD "")
    | none => .oobRead ((n : Int) - 1)

/-- Dispatch of the `!`-designator forms, per the character tests
`argv[0][1] == '-' && isdigit(argv[0][2])` and `isdigit(argv[0][1])`. -/
def historyRecall (hist : List String) (a0 : String) : RecallResult :=
  match a0.data with
  | _ :: '-' :: c :: _ =>
      if c.isDigit then recallNegDash hist (atoiDigits (a0.data.drop 2) 0)
      else .reported "Invalid event designator format, accepted use-cases: \x7b!n, !-n\x7d"
  | _ :: c :: _ =>
      if c.isDigit then recallBangN hist (atoiDigits (a0.data.drop 1) 0)
      else .reported "Invalid event designator format, accepted use-cases: \x7b!n, !-n\x7d"
  | _ => .reported "Invalid event designator format, accepted use-cases: \x7b!n, !-n\x7d"

/-- How one pipeline's command loop ends: an early `return` out of
`run_command`, or falling through to `wait_for_job` and the next pipeline. -/
inductive LoopOutcome where
  | earlyReturn (st : ShellState) (evs : List Event) (obs : List (Nat × WaitStatus))
  | done (st : ShellState) (evs : List Event) (spawns : List (Option Nat))
         (obs : List (Nat × WaitStatus))

/-- The spawning tail of one loop iteration of `run_command` (attribute
setup, `posix_spawnp` via the oracle, pid/pgid bookkeeping, and the in-loop
status assignment and background announcement): everything between the
builtin dispatch and the loop's next iteration. -/
inductive StageStep where
  | fail                            -- posix_spawnp returned nonzero
  | missing                         -- registry lookup failed: unreachable
  | ok (st : ShellState) (evs : List Event) (spawns : List (Option Nat)) (gid : Nat)

/-- The mutations one successful launch applies to the `struct job`: record
the group leader's pid as `pgid` (stage 0 only), store the pid at slot
`idx`, increment `num_processes_alive`, and assign the status — the status
assignment (like the background announcement) sits INSIDE the per-command
loop in the C source. -/
def stagedJob (p : AstPipeline) (idx : Nat) (pid : Nat) (job : Job) : Job :=
  let job1 := if idx = 0 then { job with pgid := pid } else job
  let job2 := { job1 with
                  pids := job1.pids.set idx pid,
                  num_processes_alive := job1.num_processes_alive + 1 }
  if p.bg_job then { job2 with status := JobStatus.BACKGROUND }
  else { job2 with status := JobStatus.FOREGROUND }

def stageSpawn (p : AstPipeline) (jid : Int) (gid idx : Nat)
    (spawns : List (Option Nat)) (st : ShellState) (argvEff : List String) : StageStep :=
  let next := match spawns with
    | [] => (none, ([] : List (Option Nat)))
    | r :: rs => (r, rs)
  match next.1 with
  | none => .fail
  | some pid =>
      match st.jid2job jid with
      | none => .missing
      | some job =>
          let job3 := stagedJob p idx pid job
          let stageEvs := if p.bg_job then [print_bg job3] else []
          let spawnEv := Event.spawn argvEff (if idx = 0 then 0 else gid) (!p.bg_job)
          .ok (setJob st jid job3) ([spawnEv] ++ stageEvs) next.2
            (if idx = 0 then pid else gid)

/-- The per-command loop of `run_command` for one pipeline.

Elided as outside the modelled state: the `pipe2`/`dup2`/`close` descriptor
plumbing and the `posix_spawn` attribute objects (their observable content —
process-group request and the atomic foreground `TCSETPGROUP` handoff — is
carried on the `spawn` event); `pipe2` and `malloc` failures (their paths are
not exercised by any claim).  `spawns` is the `posix_spawnp` oracle: `none`
is a launch failure.  `gid` is the local holding the first stage's pid;
`idx` counts launched stages. -/
def cmdLoop (hist : List String) (p : AstPipeline) (jid : Int) (kres : Bool) :
    List AstCommand → Nat → Nat → List (Option Nat) → List (Nat × WaitStatus) →
    ShellState → LoopOutcome
  | [], _, _, spawns, obs, st => .done st [] spawns obs
  | cmd :: rest, gid, idx, spawns, obs, st =>
      match cmd.argv.head? with
      | none =>
          -- the parser never produces an empty argv; C would dereference null
          .earlyReturn st [Event.termSample, Event.undefined 0] obs
      | some a0 =>
          if a0 = "jobs" then
            .earlyReturn st ([Event.termSample] ++ jobs_builtin st ++ [Event.sigUnblock]) obs
          else if a0 = "fg" then
            let r := fg_builtin cmd kres obs st
            .earlyReturn r.1 ([Event.termSample] ++ r.2.1 ++ [Event.sigUnblock]) r.2.2
          else if a0 = "bg" then
            let r := bg_builtin cmd kres obs st
            .earlyReturn r.1 ([Event.termSample] ++ r.2.1 ++ [Event.sigUnblock]) r.2.2
          else if a0 = "kill" then
            let r := kill_builtin cmd st
            .earlyReturn r.1 ([Event.termSample] ++ r.2 ++ [Event.sigUnblock]) obs
          else if a0 = "exit" then
            -- exit(0) terminates the process; the signal_unblock after the
            -- call is dead code
            let r := exit_builtin st
            .earlyReturn r.1 ([Event.termSample] ++ r.2) obs
          else if a0 = "stop" then
            let r := stop_builtin cmd st
            .earlyReturn r.1 ([Event.termSample] ++ r.2 ++ [Event.sigUnblock]) obs
          else if a0 = "cd" then
            .earlyReturn st ([Event.termSample] ++ cd_custom_builtin cmd ++ [Event.sigUnblock]) obs
          else if a0 = "history" then
            .earlyReturn st ([Event.termSample] ++ history_custom_builtin hist ++ [Event.sigUnblock]) obs
          else
            let recallRes : Option RecallResult :=
              if a0.data.head? = some '!' then some (historyRecall hist a0) else none
            match recallRes with
            | some (.reported msg) =>
                -- these returns skip signal_unblock in the C source
                .earlyReturn st [Event.termSample, Event.err msg] obs
            | some (.oobRead i) =>
                -- C reads outside the history array here and continues on
                -- indeterminate data; the model stops at the undefined access
                .earlyReturn st [Event.termSample, Event.undefined i] obs
            | some (.rewritten argv ann) =>
                let headEvs := [Event.termSample,
                                Event.out s!"Running command from history: {ann}"]
                match stageSpawn p jid gid idx spawns st argv with
                | .fail =>
                    -- perror; signal_unblock; delete_job (WITHOUT list_remove);
                    -- termstate_give_terminal_back_to_shell; return
                    .earlyReturn (delete_job st jid)
                      (headEvs ++ [Event.err "posix_spawnp failed", Event.sigUnblock,
                                   Event.termGiveBack]) obs
                | .missing => .earlyReturn st (headEvs ++ [Event.undefined 0]) obs
                | .ok st1 evs1 spawns2 gid2 =>
                    match cmdLoop hist p jid kres rest gid2 (idx + 1) spawns2 obs st1 with
                    | .earlyReturn st2 evs2 rem =>
                        .earlyReturn st2 (headEvs ++ evs1 ++ evs2) rem
                    | .done st2 evs2 sp2 rem =>
                        .done st2 (headEvs ++ evs1 ++ evs2) sp2 rem
            | none =>
                let headEvs := [Event.termSample]
                match stageSpawn p jid gid idx spawns st cmd.argv with
                | .fail =>
                    .earlyReturn (delete_job st jid)
                      (headEvs ++ [Event.err "posix_spawnp failed", Event.sigUnblock,
                                   Event.termGiveBack]) obs
                | .missing => .earlyReturn st (headEvs ++ [Event.undefined 0]) obs
                | .ok st1 evs1 spawns2 gid2 =>
                    match cmdLoop hist p jid kres rest gid2 (idx + 1) spawns2 obs st1 with
                    | .earlyReturn st2 evs2 rem =>
                        .earlyReturn st2 (headEvs ++ evs1 ++ evs2) rem
                    | .done st2 evs2 sp2 rem =>
                        .done st2 (headEvs ++ evs1 ++ evs2) sp2 rem

/-- The outer pipeline loop of `run_command`: per pipeline, `add_job`,
allocate the `pids` array (contents indeterminate, junk here), run the
command loop, then `signal_block` and `wait_for_job`.  After the last
pipeline: `signal_unblock` and return the terminal. -/
def runPipes (hist : List String) (kres : Bool) :
    List AstPipeline → List (Option Nat) → List (Nat × WaitStatus) → ShellState →
    ShellState × List Event
  | [], _, _, st => (st, [Event.sigUnblock, Event.termGiveBack])
  | p :: ps, spawns, obs, st =>
      match add_job st p with
      | .aborted => (st, [Event.err "Maximum number of jobs exceeded", Event.abortProcess])
      | .ok st1 j =>
          let st2 :=
            match st1.jid2job (j : Int) with
            | some job =>
                setJob st1 (j : Int)
                  { job with pids := List.replicate p.commands.length junkPid }
            | none => st1
          match cmdLoop hist p (j : Int) kres p.commands 0 0 spawns obs st2 with
          | .earlyReturn st3 evs rem =>
              let _ := rem
              (st3, evs)
          | .done st3 evs spawns2 obs2 =>
              let w := wait_for_job (j : Int) obs2 st3
              let r := runPipes hist kres ps spawns2 w.2.2 w.1
              (r.1, evs ++ [Event.sigBlock] ++ w.2.1 ++ r.2)

/-- `run_command`: `termstate_sample`, `signal_block(SIGCHLD)`, then the
pipeline loop. -/
def run_command (hist : List String) (cl : List AstPipeline) (kres : Bool)
    (spawns : List (Option Nat)) (obs : List (Nat × WaitStatus))
    (st : ShellState) : ShellState × List Event :=
  let r := runPipes hist kres cl spawns obs st
  (r.1, Event.termSample :: Event.sigBlock :: r.2)

/-- The events of a loop outcome. -/
def LoopOutcome.events : LoopOutcome → List Event
  | .earlyReturn _ evs _ => evs
  | .done _ evs _ _ => evs

/-- Number of `print_bg` announcements in a trace. -/
def countBgAnnounce (evs : List Event) : Nat :=
  (evs.filter (fun e => match e with | .bgAnnounce _ _ => true | _ => false)).length

/-- Number of successful `posix_spawnp` launches in a trace. -/
def countSpawn (evs : List Event) : Nat :=
  (evs.filter (fun e => match e with | .spawn _ _ _ => true | _ => false)).length

/-- The job ids of the `print_job` lines in a trace. -/
def listedJids (evs : List Event) : List Int :=
  evs.filterMap (fun e => match e with | .jobLine jid _ _ => some jid | _ => none)

/-- A stage that reaches the spawning code: nonempty argv whose word 0 is no
builtin name and no history designator. -/
def isExternalCmd (c : AstCommand) : Bool :=
  match c.argv with
  | [] => false
  | a0 :: _ =>
      !(a0 == "jobs") && !(a0 == "fg") && !(a0 == "bg") && !(a0 == "kill") &&
      !(a0 == "exit") && !(a0 == "stop") && !(a0 == "cd") && !(a0 == "history") &&
      !(a0.data.head? == some '!')

/-! ## Concrete fixtures used by the claim theorems -/

/-- A one-stage foreground pipeline, `sleep 100`. -/
def trivPipe : AstPipeline :=
  { commands := [{ argv := ["sleep", "100"], dup_stderr_to_stdout := false }],
    iored_input := none, iored_output := none, append_to_output := false, bg_job := false }

/-- A fully spawned nine-stage job (stage count 9 > the 8 slots the
reconciler scans). -/
def nineJob : Job :=
  { jid := 1, status := JobStatus.BACKGROUND, num_processes_alive := 9,
    termStateIsSaved := false, saved_tty_state := 0, pgid := 101,
    pids := [101, 102, 103, 104, 105, 106, 107, 108, 109], pipe := trivPipe }

/-- Registry holding exactly the nine-stage job. -/
def c1State : ShellState :=
  { job_list := [1], jid2job := fun i => if i = 1 then some nineJob else none, ttyModes := 7 }

/-- A fully spawned one-stage background job whose sole pid is 100. -/
def oneJob : Job :=
  { jid := 1, status := JobStatus.BACKGROUND, num_processes_alive := 1,
    termStateIsSaved := false, saved_tty_state := 0, pgid := 100,
    pids := [100], pipe := trivPipe }

/-- Registry holding exactly `oneJob` (so the job list is not empty). -/
def c5State : ShellState :=
  { job_list := [1], jid2job := fun i => if i = 1 then some oneJob else none, ttyModes := 7 }

/-- A stopped one-stage job with process group 50. -/
def stoppedJob : Job :=
  { jid := 1, status := JobStatus.STOPPED, num_processes_alive := 1,
    termStateIsSaved := false, saved_tty_state := 0, pgid := 50,
    pids := [100], pipe := trivPipe }

/-- Registry holding exactly `stoppedJob`. -/
def c4State : ShellState :=
  { job_list := [1], jid2job := fun i => if i = 1 then some stoppedJob else none, ttyModes := 7 }

/-- A job stopped while foreground: its terminal snapshot (42) is saved. -/
def savedJob : Job :=
  { jid := 1, status := JobStatus.STOPPED, num_processes_alive := 1,
    termStateIsSaved := true, saved_tty_state := 42, pgid := 100,
    pids := [100], pipe := trivPipe }

/-- Registry holding exactly `savedJob`. -/
def c7State : ShellState :=
  { job_list := [1], jid2job := fun i => if i = 1 then some savedJob else none, ttyModes := 7 }

/-- A registry entry whose processes have all been reaped: a background job
that exited during `readline` is reaped by the SIGCHLD handler, but `main`'s
cleanup pass only runs after the next `run_command`, so the entry lingers
with `num_processes_alive` 0 while its OS process group no longer exists
(`killpg` on it fails with ESRCH). -/
def reapedJob : Job :=
  { jid := 1, status := JobStatus.BACKGROUND, num_processes_alive := 0,
    termStateIsSaved := false, saved_tty_state := 0, pgid := 100,
    pids := [100], pipe := trivPipe }

/-- Registry holding exactly `reapedJob`. -/
def reapedState : ShellState :=
  { job_list := [1], jid2job := fun i => if i = 1 then some reapedJob else none, ttyModes := 7 }

/-- A two-stage background pipeline, `sleep 5 | cat &`. -/
def bgPipe2 : AstPipeline :=
  { commands := [{ argv := ["sleep", "5"], dup_stderr_to_stdout := false },
                 { argv := ["cat"], dup_stderr_to_stdout := false }],
    iored_input := none, iored_output := none, append_to_output := false, bg_job := true }

/-- The registry state right after `add_job`/`malloc` for `bgPipe2`
(job id 1 assigned, nothing spawned yet; `status` and `pids` carry the junk
the C code leaves there). -/
def c3Job : Job :=
  { jid := 1, status := junkStatus, num_processes_alive := 0,
    termStateIsSaved := false, saved_tty_state := junkPid, pgid := junkPid,
    pids := [junkPid, junkPid], pipe := bgPipe2 }

def c3State : ShellState :=
  { job_list := [1], jid2job := fun i => if i = 1 then some c3Job else none, ttyModes := 0 }

/-- A two-stage foreground pipeline whose first program does not exist. -/
def fgPipe2 : AstPipeline :=
  { commands := [{ argv := ["nosuch"], dup_stderr_to_stdout := false },
                 { argv := ["wc"], dup_stderr_to_stdout := false }],
    iored_input := none, iored_output := none, append_to_output := false, bg_job := false }

/-- A one-stage pipeline whose command word is the designator `!-5`. -/
def bangPipe : AstPipeline :=
  { commands := [{ argv := ["!-5"], dup_stderr_to_stdout := false }],
    iored_input := none, iored_output := none, append_to_output := false, bg_job := false }

/-- A one-stage pipeline whose command word is `jobs`. -/
def jobsPipe : AstPipeline :=
  { commands := [{ argv := ["jobs"], dup_stderr_to_stdout := false }],
    iored_input := none, iored_output := none, append_to_output := false, bg_job := false }

/-- Some live job, used to fill every slot of the exhausted registry. -/
def fullJob : Job :=
  { jid := 1, status := JobStatus.BACKGROUND, num_processes_alive := 1,
    termStateIsSaved := false, saved_tty_state := 0, pgid := 1,
    pids := [1], pipe := trivPipe }

/-- A registry whose every `jid2job` slot is occupied: the job id space is
exhausted. -/
def fullState : ShellState :=
  { job_list := [], jid2job := fun _ => some fullJob, ttyModes := 0 }

/-! ## Helper lemmas -/

theorem setJob_jid2job_self (st : ShellState) (j : Int) (job : Job) :
    (setJob st j job).jid2job j = some job := by
  simp [setJob]

theorem fullState_no_free : smallestFreeJid fullState = none := by
  simp [smallestFreeJid, List.find?_eq_none, fullState]

/-- When the job is not foreground, the waiter's loop body never runs: it
just returns the terminal, unblocks SIGCHLD, and consumes no observation. -/
theorem wait_for_job_not_cont (jid : Int) (obs : List (Nat × WaitStatus))
    (st : ShellState) (h : waitCont st jid = false) :
    wait_for_job jid obs st = (st, [Event.termGiveBack, Event.sigUnblock], obs) := by
  cases obs with
  | nil => simp [wait_for_job, h]
  | cons o rest => simp [wait_for_job, h]

theorem waitCont_of_status_ne (st : ShellState) (jid : Int) (job : Job)
    (h : st.jid2job jid = some job) (hns : job.status ≠ JobStatus.FOREGROUND) :
    waitCont st jid = false := by
  simp [waitCont, h, hns]

theorem countBgAnnounce_append (a b : List Event) :
    countBgAnnounce (a ++ b) = countBgAnnounce a + countBgAnnounce b := by
  simp [countBgAnnounce, List.filter_append]

/-! ## Claim theorems -/

/-- C1: the claim says `handle_child_status` locates the owning process by
scanning exactly the stage count of the job's `processes` sequence, keeping
`alive_count` equal to the entries not yet reported exited.  The code instead
bounds the scan by `sizeof(job->pids)` — the size of the *pointer*, 8 — so for
the nine-stage job the exit of the ninth pid (109, stored at index 8) is never
found: no transition fires, nothing is printed, and `num_processes_alive`
stays 9 although only 8 processes remain unreported.  A pid inside the
scanned window (108, index 7) is decremented normally, isolating the bound as
the defect. -/
theorem c1_reconciler_scans_pointer_size_not_stage_count :
    (handle_child_status 109 (WaitStatus.exited 0) c1State).2 = [] ∧
    ((handle_child_status 109 (WaitStatus.exited 0) c1State).1.jid2job 1).map
      Job.num_processes_alive = some 9 ∧
    ((handle_child_status 108 (WaitStatus.exited 0) c1State).1.jid2job 1).map
      Job.num_processes_alive = some 8 :=
  ⟨by decide, by decide, by decide⟩

/-- C5: the claim says an observation whose pid belongs to no live job is
reported as a protocol violation and never silently dropped.  With a
non-empty registry (one job owning pid 100) and the unknown pid 200, the
code emits no output at all and leaves the job untouched: the `if (!job)`
report branch is unreachable because `list_entry` never yields null, so the
observation is silently dropped. -/
theorem c5_unknown_pid_dropped_without_report :
    c5State.job_list = [1] ∧
    (handle_child_status 200 (WaitStatus.exited 0) c5State).2 = [] ∧
    (handle_child_status 200 (WaitStatus.exited 0) c5State).1.jid2job 1 = some oneJob :=
  ⟨rfl, by decide, by decide⟩

/-- C6: the claim says a launch failure removes the job from the registry so
that no live registry entry — including the iteration list — still refers to
it.  Launch failure of the pipeline `nosuch | wc` does report, restores the
terminal, launches no stage, and clears the `jid2job` slot, but `delete_job`
is called without `list_remove`: job id 1 is still linked in `job_list`
(which now references freed memory in the C program). -/
theorem c6_spawn_failure_leaves_dangling_iteration_entry :
    (run_command [] [fgPipe2] true [none] [] emptyState).1.jid2job 1 = none ∧
    (run_command [] [fgPipe2] true [none] [] emptyState).1.job_list = [1] ∧
    Event.err "posix_spawnp failed" ∈ (run_command [] [fgPipe2] true [none] [] emptyState).2 ∧
    Event.termGiveBack ∈ (run_command [] [fgPipe2] true [none] [] emptyState).2 ∧
    countSpawn (run_command [] [fgPipe2] true [none] [] emptyState).2 = 0 :=
  ⟨by decide, by decide, by decide, by decide, by decide⟩

/-- C8: the claim says an out-of-range `!n`/`!-n` designator fails with an
`InvalidArgument` error and no side effect.  With two retained history
entries, `!-5` computes index `size - n - 2 = -4` and — the `!-n` branch
having no range check — reads `cmd_history[-4]`, an out-of-bounds access on
which the C code would then rewrite the argument vector (undefined
behavior); the executor reaches that access instead of reporting.  The `!n`
branch by contrast does reject its out-of-range `!9`. -/
theorem c8_negdash_out_of_range_reads_out_of_bounds :
    historyRecall ["ls -l", "!-5"] "!-5" = RecallResult.oobRead (-4) ∧
    Event.undefined (-4) ∈ (run_command ["ls -l", "!-5"] [bangPipe] true [] [] emptyState).2 ∧
    recallBangN ["ls -l", "!9"] 9 = RecallResult.reported "Improper n-value for !n cmd" :=
  ⟨by decide, by decide, by decide⟩

/-- C2 counterexample: the claim says id-space exhaustion is a recoverable
`CapacityExceeded` error — reported, pipeline rejected, shell continues, no
abort.  On the exhausted registry `add_job` takes its `abort()` path: the
executor reports "Maximum number of jobs exceeded" and the process aborts
instead of continuing. -/
theorem c2_counterexample_exhaustion_aborts_process :
    add_job fullState trivPipe = AddJobResult.aborted ∧
    runPipes [] true [trivPipe] [] [] fullState =
      (fullState, [Event.err "Maximum number of jobs exceeded", Event.abortProcess]) := by
  have h := fullState_no_free
  exact ⟨by simp [add_job, h], by simp [runPipes, add_job, h]⟩

/-- C2 amended: when job creation finds the job-id space exhausted, the new
pipeline is rejected without a job id being assigned, the failure "Maximum
number of jobs exceeded" is reported — and the shell process then aborts
(`abort()`), rather than continuing with a recoverable error. -/
theorem c2_amended_exhaustion_reports_then_aborts (st : ShellState) (p : AstPipeline)
    (hist : List String) (kres : Bool) (spawns : List (Option Nat))
    (obs : List (Nat × WaitStatus))
    (h : smallestFreeJid st = none) :
    runPipes hist kres [p] spawns obs st =
      (st, [Event.err "Maximum number of jobs exceeded", Event.abortProcess]) := by
  simp [runPipes, add_job, h]

/-- C2 witness: the amended behavior at the concrete exhausted registry. -/
theorem c2_amended_witness :
    smallestFreeJid fullState = none ∧
    runPipes [] true [trivPipe] [] [] fullState =
      (fullState, [Event.err "Maximum number of jobs exceeded", Event.abortProcess]) :=
  ⟨fullState_no_free,
   c2_amended_exhaustion_reports_then_aborts fullState trivPipe [] true [] []
     fullState_no_free⟩

/-- C4 counterexample: the claim says `bg <id>` on a stopped job prints the
background announcement (the `[id] process_group` form).  On the concrete
stopped job the emitted trace contains no `print_bg` announcement at all: the
code calls `print_job`, producing the job line `[1] Running (sleep 100)`
instead. -/
theorem c4_counterexample_bg_prints_job_line_not_announcement :
    countBgAnnounce
      (bg_builtin { argv := ["bg", "1"], dup_stderr_to_stdout := false } true [] c4State).2.1
        = 0 ∧
    (bg_builtin { argv := ["bg", "1"], dup_stderr_to_stdout := false } true [] c4State).2.1 =
      [Event.jobLine 1 "Running" [["sleep", "100"]], Event.signalPg 50 SIGCONT,
       Event.termGiveBack, Event.sigUnblock] :=
  ⟨by decide, by decide⟩

/-- C4 amended: for every `bg <id>` where the id exists and the job's status
is `Stopped`, the builtin sets the status to `Background`, prints the job via
`print_job` (the `[id] Status (cmdline)` job line, not the `[id]
process_group` announcement), and calls `killpg` to send "continue" to the
whole process group.  If that delivery fails (the group no longer exists,
e.g. every process already reaped) the shell dies via `utils_fatal_error`;
if it succeeds, no blocking wait occurs: the `wait_for_job` call consumes no
`waitpid` observation, because the loop condition fails with the status just
set to `Background`.  In both cases the observation oracle is returned
unconsumed. -/
theorem c4_amended_bg_sets_background_prints_job_line_no_wait
    (st : ShellState) (s : String) (j : Int) (job : Job) (kres : Bool)
    (obs : List (Nat × WaitStatus))
    (hs : atoi s = j) (hj : get_job_from_jid st j = some job)
    (hstop : job.status = JobStatus.STOPPED) :
    bg_builtin { argv := ["bg", s], dup_stderr_to_stdout := false } kres obs st =
      (setJob st j { job with status := JobStatus.BACKGROUND },
       Event.jobLine job.jid "Running" (cmdlineOf job.pipe) ::
         Event.signalPg job.pgid SIGCONT ::
         (if kres then [Event.termGiveBack, Event.sigUnblock]
          else [Event.fatal s!"kill pgid failed {job.pgid}"]),
       obs) := by
  have hw : waitCont (setJob st j { job with status := JobStatus.BACKGROUND }) j = false := by
    apply waitCont_of_status_ne _ _ { job with status := JobStatus.BACKGROUND }
      (setJob_jid2job_self ..)
    simp
  cases kres with
  | false =>
      simp [bg_builtin, hs, hj, hstop, print_job, get_status]
  | true =>
      simp [bg_builtin, hs, hj, hstop, wait_for_job_not_cont _ _ _ hw, print_job,
        get_status]

/-- C4 witness: the amended behavior at the concrete stopped job, with a
non-empty `waitpid` oracle to exhibit that no observation is consumed. -/
theorem c4_amended_witness :
    atoi "1" = 1 ∧ get_job_from_jid c4State 1 = some stoppedJob ∧
    stoppedJob.status = JobStatus.STOPPED ∧
    bg_builtin { argv := ["bg", "1"], dup_stderr_to_stdout := false } true
        [(100, WaitStatus.exited 0)] c4State =
      (setJob c4State 1 { stoppedJob with status := JobStatus.BACKGROUND },
       Event.jobLine stoppedJob.jid "Running" (cmdlineOf stoppedJob.pipe) ::
         Event.signalPg stoppedJob.pgid SIGCONT ::
         (if true then [Event.termGiveBack, Event.sigUnblock]
          else [Event.fatal s!"kill pgid failed {stoppedJob.pgid}"]),
       [(100, WaitStatus.exited 0)]) :=
  ⟨by decide, by decide, rfl,
   c4_amended_bg_sets_background_prints_job_line_no_wait c4State "1" 1 stoppedJob true
     [(100, WaitStatus.exited 0)] (by decide) (by decide) rfl⟩

/-- C7 counterexample: the claim says that for every `fg <id>` where the id
exists, the builtin (after the terminal handoff and printing) sends
"continue" and invokes the foreground waiter.  On a registry entry whose
processes were all already reaped (id 1 exists, `alive_count` 0, group gone)
`killpg` fails, and the shell dies via `utils_fatal_error` right after
`print_job`: the waiter is never invoked — no observation is consumed and
the waiter's terminal-return/`SIGCHLD`-unblock tail never happens. -/
theorem c7_counterexample_fg_fatals_on_reaped_group :
    (fg_builtin { argv := ["fg", "1"], dup_stderr_to_stdout := false } false
        [(100, WaitStatus.exited 0)] reapedState).2.1 =
      [Event.termGiveTo none 100, Event.jobLine 1 "Foreground" [["sleep", "100"]],
       Event.signalPg 100 SIGCONT, Event.fatal "kill pgid failed 100"] ∧
    Event.termGiveBack ∉
      (fg_builtin { argv := ["fg", "1"], dup_stderr_to_stdout := false } false
        [(100, WaitStatus.exited 0)] reapedState).2.1 ∧
    (fg_builtin { argv := ["fg", "1"], dup_stderr_to_stdout := false } false
        [(100, WaitStatus.exited 0)] reapedState).2.2 =
      [(100, WaitStatus.exited 0)] :=
  ⟨by decide, by decide, by decide⟩

/-- C7 amended: for every `fg <id>` where the id exists, the builtin sets the
status to `Foreground`; if the job holds a saved terminal snapshot it
restores exactly that snapshot to the job's process group and clears the
flag, else it transfers the terminal without one; it then prints the job and
calls `killpg` to send "continue" to the whole process group.  If the
delivery succeeds it invokes the foreground waiter (`wait_for_job`), whose
state, trace and consumed observations it returns; if the delivery fails
(the group no longer exists, e.g. every process already reaped) the shell
dies via `utils_fatal_error` without invoking the waiter. -/
theorem c7_amended_fg_restores_snapshot_then_waits_or_fatals
    (st : ShellState) (s : String) (j : Int) (job : Job) (kres : Bool)
    (obs : List (Nat × WaitStatus))
    (hs : atoi s = j) (hj : get_job_from_jid st j = some job) :
    fg_builtin { argv := ["fg", s], dup_stderr_to_stdout := false } kres obs st =
      (let st1 := setJob st j { job with status := JobStatus.FOREGROUND,
                                         termStateIsSaved := false }
       let w := wait_for_job j obs st1
       ((if kres then w.1 else st1),
        Event.termGiveTo (if job.termStateIsSaved then some job.saved_tty_state else none)
            job.pgid ::
          Event.jobLine job.jid "Foreground" (cmdlineOf job.pipe) ::
          Event.signalPg job.pgid SIGCONT ::
          (if kres then w.2.1 else [Event.fatal s!"kill pgid failed {job.pgid}"]),
        if kres then w.2.2 else obs)) := by
  by_cases hsv : job.termStateIsSaved
  · cases kres with
    | false => simp [fg_builtin, hs, hj, hsv, print_job, get_status]
    | true => simp [fg_builtin, hs, hj, hsv, print_job, get_status]
  · obtain ⟨jjid, jst, jal, jsv, jtty, jpg, jpids, jpipe⟩ := job
    simp only [Bool.not_eq_true] at hsv
    subst hsv
    cases kres with
    | false => simp [fg_builtin, hs, hj, print_job, get_status]
    | true => simp [fg_builtin, hs, hj, print_job, get_status]

/-- C7 witness: `fg 1` on the job stopped while foreground (snapshot 42
saved, group alive so `killpg` succeeds), with an oracle that lets the
waiter reap its one process. -/
theorem c7_amended_witness :
    atoi "1" = 1 ∧ get_job_from_jid c7State 1 = some savedJob ∧
    fg_builtin { argv := ["fg", "1"], dup_stderr_to_stdout := false } true
        [(100, WaitStatus.exited 0)] c7State =
      (let st1 := setJob c7State 1 { savedJob with status := JobStatus.FOREGROUND,
                                                   termStateIsSaved := false }
       let w := wait_for_job 1 [(100, WaitStatus.exited 0)] st1
       ((if true then w.1 else st1),
        Event.termGiveTo (if savedJob.termStateIsSaved then some savedJob.saved_tty_state
            else none) savedJob.pgid ::
          Event.jobLine savedJob.jid "Foreground" (cmdlineOf savedJob.pipe) ::
          Event.signalPg savedJob.pgid SIGCONT ::
          (if true then w.2.1 else [Event.fatal s!"kill pgid failed {savedJob.pgid}"]),
        if true then w.2.2 else [(100, WaitStatus.exited 0)])) :=
  ⟨by decide, by decide,
   c7_amended_fg_restores_snapshot_then_waits_or_fatals c7State "1" 1 savedJob true
     [(100, WaitStatus.exited 0)] (by decide) (by decide)⟩

/-- C9: for every `kill <id>` where the id exists (and the registry is
consistent, i.e. the stored `jid` matches the key), the builtin sets the
job's status to `STOPPED` — although the processes are being terminated, not
stopped — and sends `SIGKILL` to the job's process group once per process
known alive. -/
theorem c9_kill_marks_job_stopped_and_kills_group
    (st : ShellState) (s : String) (j : Int) (job : Job)
    (hs : atoi s = j) (hj : get_job_from_jid st j = some job) (hjid : job.jid = j) :
    kill_builtin { argv := ["kill", s], dup_stderr_to_stdout := false } st =
      (setJob st j { job with status := JobStatus.STOPPED },
       List.replicate job.num_processes_alive.toNat (Event.signalPg job.pgid SIGKILL)) := by
  simp [kill_builtin, hs, hj, hjid]

/-- C9 witness: `kill 1` on the live background job `oneJob`. -/
theorem c9_witness :
    atoi "1" = 1 ∧ get_job_from_jid c5State 1 = some oneJob ∧ oneJob.jid = 1 ∧
    kill_builtin { argv := ["kill", "1"], dup_stderr_to_stdout := false } c5State =
      (setJob c5State 1 { oneJob with status := JobStatus.STOPPED },
       List.replicate oneJob.num_processes_alive.toNat
         (Event.signalPg oneJob.pgid SIGKILL)) :=
  ⟨by decide, by decide, rfl,
   c9_kill_marks_job_stopped_and_kills_group c5State "1" 1 oneJob
     (by decide) (by decide) rfl⟩

/-- C3 counterexample: the claim says every background pipeline announces
`[id] process_group` exactly once, after the last stage is launched.  Running
the two-stage background pipeline `sleep 5 | cat &` (both spawns succeeding)
emits the announcement twice — the announcement call sits inside the
per-stage loop. -/
theorem c3_counterexample_two_stage_bg_announces_twice :
    countBgAnnounce (run_command [] [bgPipe2] true [some 100, some 101] [] emptyState).2 = 2 ∧
    countBgAnnounce (run_command [] [bgPipe2] true [some 100, some 101] [] emptyState).2 ≠ 1 :=
  ⟨by decide, by decide⟩

/-- C3 amended: for every background pipeline, the executor emits the
`[id] process_group` announcement once after each successfully launched
stage — stage-count times in total, the last of them after the final stage —
so it is exactly once only for single-stage pipelines. -/
theorem c3_amended_bg_announced_once_per_launched_stage
    (hist : List String) (p : AstPipeline) (jid : Int) (kres : Bool)
    (cmds : List AstCommand) (gid idx : Nat) (spawns : List (Option Nat))
    (obs : List (Nat × WaitStatus)) (st : ShellState) (job : Job)
    (hbg : p.bg_job = true)
    (hext : cmds.all isExternalCmd = true)
    (hlen : cmds.length ≤ spawns.length)
    (hsp : (spawns.take cmds.length).all Option.isSome = true)
    (hjob : st.jid2job jid = some job) :
    countBgAnnounce (cmdLoop hist p jid kres cmds gid idx spawns obs st).events
      = cmds.length := by
  induction cmds generalizing gid idx spawns st job with
  | nil => simp [cmdLoop, LoopOutcome.events, countBgAnnounce]
  | cons c cs ih =>
    rw [List.all_cons, Bool.and_eq_true] at hext
    obtain ⟨hc, hcs⟩ := hext
    cases hargv : c.argv with
    | nil => rw [isExternalCmd, hargv] at hc; simp at hc
    | cons a0 args =>
      simp only [isExternalCmd, hargv, Bool.and_eq_true, Bool.not_eq_true',
        beq_eq_false_iff_ne, ne_eq] at hc
      obtain ⟨⟨⟨⟨⟨⟨⟨⟨h1, h2⟩, h3⟩, h4⟩, h5⟩, h6⟩, h7⟩, h8⟩, h9⟩ := hc
      cases spawns with
      | nil => simp at hlen
      | cons s0 srest =>
        simp only [List.length_cons, List.take_succ_cons, List.all_cons,
          Bool.and_eq_true] at hsp
        obtain ⟨hs0, hsrest⟩ := hsp
        obtain ⟨pid, rfl⟩ := Option.isSome_iff_exists.mp hs0
        have hlen2 : cs.length ≤ srest.length := by
          simp only [List.length_cons] at hlen; omega
        simp only [cmdLoop, hargv, List.head?_cons, h1, h2, h3, h4, h5, h6, h7, h8, h9,
          if_false, stageSpawn, hjob]
        cases hrec : cmdLoop hist p jid kres cs (if idx = 0 then pid else gid) (idx + 1)
            srest obs (setJob st jid (stagedJob p idx pid job)) with
        | earlyReturn st2 evs2 rem =>
            have ih2 := ih (if idx = 0 then pid else gid) (idx + 1) srest
              (setJob st jid (stagedJob p idx pid job)) (stagedJob p idx pid job)
              hcs hlen2 hsrest (setJob_jid2job_self ..)
            rw [hrec] at ih2
            simp only [LoopOutcome.events] at ih2
            simp only [LoopOutcome.events, hbg, if_true, countBgAnnounce_append, ih2]
            simp [countBgAnnounce, print_bg]
            omega
        | done st2 evs2 sp2 rem =>
            have ih2 := ih (if idx = 0 then pid else gid) (idx + 1) srest
              (setJob st jid (stagedJob p idx pid job)) (stagedJob p idx pid job)
              hcs hlen2 hsrest (setJob_jid2job_self ..)
            rw [hrec] at ih2
            simp only [LoopOutcome.events] at ih2
            simp only [LoopOutcome.events, hbg, if_true, countBgAnnounce_append, ih2]
            simp [countBgAnnounce, print_bg]
            omega

/-- C3 witness: the amended count at the concrete two-stage background
pipeline, from the registry state right after its job was created. -/
theorem c3_amended_witness :
    bgPipe2.bg_job = true ∧
    bgPipe2.commands.all isExternalCmd = true ∧
    bgPipe2.commands.length ≤ ([some 100, some 101] : List (Option Nat)).length ∧
    (([some 100, some 101] : List (Option Nat)).take bgPipe2.commands.length).all
      Option.isSome = true ∧
    c3State.jid2job 1 = some c3Job ∧
    countBgAnnounce
      (cmdLoop [] bgPipe2 1 true bgPipe2.commands 0 0 [some 100, some 101] [] c3State).events
      = bgPipe2.commands.length :=
  ⟨rfl, by decide, by decide, by decide, by decide,
   c3_amended_bg_announced_once_per_launched_stage [] bgPipe2 1 true bgPipe2.commands 0 0
     [some 100, some 101] [] c3State c3Job rfl (by decide) (by decide) (by decide)
     (by decide)⟩

/-- C10: for every submitted pipeline, `add_job` runs — consuming the
smallest free job id — before the builtin check; hence a pipeline whose
first command is the `jobs` builtin also leaves a registry entry for itself
(with `num_processes_alive` 0 and owning the pipeline) both in `jid2job` and
on the iteration list for the remainder of the prompt cycle, and the output
of `jobs` includes the job created for the `jobs` command itself. -/
theorem c10_job_added_before_builtin_check
    (st : ShellState) (p : AstPipeline) (c : AstCommand) (rest : List AstCommand)
    (args : List String) (j : Nat) (hist : List String) (kres : Bool)
    (spawns : List (Option Nat)) (obs : List (Nat × WaitStatus))
    (hp : p.commands = c :: rest) (hc : c.argv = "jobs" :: args)
    (hj : smallestFreeJid st = some j) :
    ((runPipes hist kres [p] spawns obs st).1.jid2job (j : Int)).map
        (fun jb => (jb.num_processes_alive, jb.pipe)) = some (0, p) ∧
    (j : Int) ∈ (runPipes hist kres [p] spawns obs st).1.job_list ∧
    (j : Int) ∈ listedJids (runPipes hist kres [p] spawns obs st).2 := by
  have hjmem : j ∈ List.range' 1 (MAXJOBS - 1) :=
    List.mem_of_find?_eq_some hj
  have hjbounds : 1 ≤ j ∧ j < 1 + (MAXJOBS - 1) := List.mem_range'_1.mp hjmem
  have hj1 : (0 : Int) < (j : Int) := by exact_mod_cast hjbounds.1
  have hj2 : j < MAXJOBS := by
    have h := hjbounds.2
    norm_num [MAXJOBS] at h ⊢
    omega
  have hj2' : (j : Int) < (MAXJOBS : Int) := by exact_mod_cast hj2
  simp only [runPipes, add_job, hj, hp, hc, cmdLoop, List.head?_cons, if_true]
  refine ⟨by simp [setJob], by simp [setJob], ?_⟩
  simp only [listedJids, List.filterMap_append]
  apply List.mem_append.mpr
  left
  apply List.mem_append.mpr
  right
  apply List.mem_filterMap.mpr
  refine ⟨Event.jobLine (j : Int) (get_status junkStatus) (cmdlineOf p), ?_, rfl⟩
  apply List.mem_filterMap.mpr
  refine ⟨j, hjmem, ?_⟩
  simp [get_job_from_jid, hj1, hj2', setJob, print_job, cmdlineOf]

/-- C10 witness: submitting the single pipeline `jobs` to the empty shell
assigns job id 1, and the `jobs` output includes that job itself. -/
theorem c10_witness :
    jobsPipe.commands = [{ argv := ["jobs"], dup_stderr_to_stdout := false }] ∧
    smallestFreeJid emptyState = some 1 ∧
    ((runPipes [] true [jobsPipe] [] [] emptyState).1.jid2job (1 : Int)).map
        (fun jb => (jb.num_processes_alive, jb.pipe)) = some (0, jobsPipe) ∧
    (1 : Int) ∈ (runPipes [] true [jobsPipe] [] [] emptyState).1.job_list ∧
    (1 : Int) ∈ listedJids (runPipes [] true [jobsPipe] [] [] emptyState).2 := by
  have h := c10_job_added_before_builtin_check emptyState jobsPipe
    { argv := ["jobs"], dup_stderr_to_stdout := false } [] [] 1 [] true [] [] rfl rfl rfl
  exact ⟨rfl, rfl, h.1, h.2.1, h.2.2⟩
